import Mathlib

/-!
Shallow embedding of `src/WEEK7.py`, a command-line COVID-19 statistics
client.  The program has one HTTP GET helper (`get_remote_data`) and three
command handlers (`overall`, `nation_stats`, `past_data`).  Pure parts
(URL construction, response dispatch, output formatting) are translated as
Lean functions; the effectful parts (connection lifecycle, `click.echo`
calls) are made explicit: each handler returns the list of echoed lines
together with an optional uncaught Python exception, and the connection
lifecycle of `get_remote_data` is modelled as a statement list run by a
small interpreter with early-return semantics.
-/

namespace Week7

/-- JSON values as produced by `json.loads`.  Numeric fields of this API are
integers, so numbers are modelled as `Int`; `null` doubles as Python `None`
(exactly as in Python, where `json.loads "null"` is `None`). -/
inductive Json where
  | null
  | bool (b : Bool)
  | num (n : Int)
  | str (s : String)
  | arr (elems : List Json)
  | obj (entries : List (String × Json))

/-- Python truthiness of a parsed-JSON value: `None`, `False`, `0`, `""`,
`[]` and the empty dict are falsy, everything else truthy. -/
def Json.truthy : Json → Bool
  | .null => false
  | .bool b => b
  | .num n => n != 0
  | .str s => !s.isEmpty
  | .arr elems => !elems.isEmpty
  | .obj entries => !entries.isEmpty

/-- First-match lookup in a dict's entry list (Python dicts cannot hold
duplicate keys, so first-match is exact). -/
def lookupEntry (entries : List (String × Json)) (k : String) : Option Json :=
  match entries with
  | [] => none
  | (key, v) :: rest => if key = k then some v else lookupEntry rest k

/-- Python subscript `j[k]` with a string key: dict lookup, `KeyError` when
the key is absent, `TypeError` on a non-dict. -/
def pyGetItem (j : Json) (k : String) : Except String Json :=
  match j with
  | .obj entries =>
    match lookupEntry entries k with
    | some v => Except.ok v
    | none => Except.error ("KeyError: " ++ k)
  | _ => Except.error "TypeError: value is not subscriptable by a string key"

/-- Python membership test `k in j` (line 78 uses it on the parsed
response): key membership for a dict, element membership for a list,
substring test for a string, `TypeError` otherwise. -/
def pyContains (k : String) (j : Json) : Except String Bool :=
  match j with
  | .obj entries => Except.ok (entries.any (fun kv => kv.1 == k))
  | .arr elems =>
    Except.ok (elems.any (fun x => match x with | .str s => s == k | _ => false))
  | .str s =>
    Except.ok ((List.range (s.length + 1)).any
      (fun i => k.toList.isPrefixOf (s.toList.drop i)))
  | _ => Except.error "TypeError: argument of type is not iterable"

/-- `.items()` on a parsed-JSON value: the entry list of a dict in
insertion order, `AttributeError` otherwise. -/
def pyItems (j : Json) : Except String (List (String × Json)) :=
  match j with
  | .obj entries => Except.ok entries
  | _ => Except.error "AttributeError: object has no attribute items"

/-- Python `str()` of a parsed-JSON scalar, as used inside f-strings. -/
def jsonPyStr : Json → String
  | .null => "None"
  | .bool true => "True"
  | .bool false => "False"
  | .num n => n.repr
  | .str s => s
  | .arr _ => "[...]"
  | .obj _ => "\x7b...\x7d"

/-- Digits of a decimal numeral grouped in threes from the right, the
grouping of Python's thousands-separator format spec. -/
def chunk3 : List Char → List (List Char)
  | [] => []
  | a :: b :: c :: rest => [a, b, c] :: chunk3 rest
  | [a, b] => [[a, b]]
  | [a] => [[a]]

/-- Comma-grouped decimal rendering of a natural number. -/
def natCommaGrouped (n : Nat) : String :=
  let groups := (chunk3 (Nat.repr n).toList.reverse).map List.reverse
  String.intercalate "," (groups.reverse.map List.asString)

/-- Python's integer format with a comma format spec, `f-string {v:,}`:
decimal digits with thousands separators, a leading minus for negatives. -/
def formatNum (n : Int) : String :=
  (if n < 0 then "-" else "") ++ natCommaGrouped n.natAbs

/-- Applying the comma format spec to a parsed-JSON value: integers format
with separators, booleans as the integers 1 and 0 (Python `bool` is an
`int` subclass), anything else raises. -/
def pyFormatComma (j : Json) : Except String String :=
  match j with
  | .num n => Except.ok (formatNum n)
  | .bool b => Except.ok (if b then "1" else "0")
  | _ => Except.error "TypeError: unsupported format spec for this value"

/-- Values the program places in its query-parameter dicts (line 76 uses an
int and a bool). -/
inductive PVal where
  | int (n : Int)
  | bool (b : Bool)
  | str (s : String)

/-- Python `str()` of a query-parameter value, as interpolated by the
f-string on line 17: note `str True = "True"` with a capital T. -/
def PVal.pyStr : PVal → String
  | .int n => n.repr
  | .bool true => "True"
  | .bool false => "False"
  | .str s => s

/-- Fixed remote host (line 8). -/
def BASE_URL_DOMAIN : String := "disease.sh"

/-- Fixed API version prefix (line 9). -/
def API_VERSION : String := "/v3/covid-19"

/-- Request-path construction of `get_remote_data` (lines 15-18): the path
is appended to the version prefix; a truthy (present and non-empty)
parameter dict is serialised as `key=value` pairs joined with `&` after a
`?`, each value via Python `str()` with no URL-encoding. -/
def get_full_path (path : String) (query_params : Option (List (String × PVal))) : String :=
  let full_path := API_VERSION ++ "/" ++ path
  match query_params with
  | some qs =>
    if qs.isEmpty then full_path
    else full_path ++ "?" ++
      String.intercalate "&" (qs.map (fun kv => kv.1 ++ "=" ++ kv.2.pyStr))
  | none => full_path

/-- Zero-padded two-digit rendering, the `%m %d %H %M %S` directives of
`strftime`. -/
def pad2 (n : Nat) : String :=
  if n < 10 then "0" ++ Nat.repr n else Nat.repr n

/-- Proleptic-Gregorian civil date `(year, month, day)` of a day count
relative to the Unix epoch (1970-01-01 is day 0).  This models the calendar
decomposition performed by `datetime.fromtimestamp`; all intermediate
divisions use floor semantics (`Int.ediv`/`Int.emod`, exact for the
non-negative intermediates of the standard era decomposition). -/
def civilFromDays (z0 : Int) : Int × Int × Int :=
  let z := z0 + 719468
  let era := z / 146097
  let doe := z % 146097
  let yoe := (doe - doe / 1460 + doe / 36524 - doe / 146096) / 365
  let y := yoe + era * 400
  let doy := doe - (365 * yoe + yoe / 4 - yoe / 100)
  let mp := (5 * doy + 2) / 153
  let d := doy - (153 * mp + 2) / 5 + 1
  let m := if mp < 10 then mp + 3 else mp - 9
  (if m ≤ 2 then y + 1 else y, m, d)

/-- The six components of `datetime.fromtimestamp(secs)` in a local zone
that is `tz` seconds ahead of UTC (the local zone enters only as this
offset; `fromtimestamp` consults the process's locale the same way). -/
def pyFromtimestampParts (tz secs : Int) : Int × Int × Int × Int × Int × Int :=
  let t := secs + tz
  let days := t / 86400
  let tod := t % 86400
  let ymd := civilFromDays days
  (ymd.1, ymd.2.1, ymd.2.2, tod / 3600, tod % 3600 / 60, tod % 60)

/-- `datetime.fromtimestamp(secs).strftime(%Y-%m-%d %H:%M:%S)` in a local
zone `tz` seconds ahead of UTC (lines 48 and 66 use exactly this format
string). -/
def pyStrftimeLocal (tz secs : Int) : String :=
  let p := pyFromtimestampParts tz secs
  p.1.repr ++ "-" ++ pad2 p.2.1.toNat ++ "-" ++ pad2 p.2.2.1.toNat ++ " " ++
    pad2 p.2.2.2.1.toNat ++ ":" ++ pad2 p.2.2.2.2.1.toNat ++ ":" ++ pad2 p.2.2.2.2.2.toNat

/-- `click.style(text, fg, bold)` when writing to a terminal: the
foreground SGR escape, a bold escape when requested (the program passes
`bold` only as `True`), the text, then the reset escape. -/
def cli_style (text fg : String) (bold : Bool) : String :=
  let code :=
    if fg = "black" then "30" else if fg = "red" then "31"
    else if fg = "green" then "32" else if fg = "yellow" then "33"
    else if fg = "blue" then "34" else if fg = "magenta" then "35"
    else if fg = "cyan" then "36" else if fg = "white" then "37" else "39"
  "\x1b[" ++ code ++ "m" ++ (if bold then "\x1b[1m" else "") ++ text ++ "\x1b[0m"

/-- Runs a straight-line sequence of `click.echo` calls whose line contents
may raise (dynamic field lookups happen inside the f-strings): lines before
the first raising lookup are printed, the exception then propagates
uncaught. -/
def runEchoes : List (Except String String) → List String × Option String
  | [] => ([], none)
  | Except.ok s :: rest =>
    let r := runEchoes rest
    (s :: r.1, r.2)
  | Except.error e :: _ => ([], some e)

/-- Response dispatch of `get_remote_data` (lines 21-26), with the body of
a 200 response already parsed (`json.loads` is external; a malformed body
is an unhandled edge case of the program).  Returns the echoed lines and
the Python return value: the parsed body on 200, `None` otherwise. -/
def get_remote_data_result (status : Nat) (reason : String) (parsedBody : Json) :
    List String × Json :=
  if status = 200 then ([], parsedBody)
  else (["Encountered an issue fetching data: " ++ Nat.repr status ++ " " ++ reason],
        Json.null)

/-- The `overall` command (lines 36-49) applied to the value returned by
`get_remote_data "all"` and a local-zone offset.  Returns the echoed lines
and an optional uncaught exception (a missing field is a `KeyError` raised
mid-sequence, after the earlier lines have been echoed). -/
def overall (relevant_info : Json) (tz : Int) : List String × Option String :=
  if relevant_info.truthy then
    runEchoes
      [ Except.ok (cli_style "--- Global COVID-19 Overview ---" "cyan" true)
      , (pyGetItem relevant_info "cases" >>= pyFormatComma).map
          (fun s => "Total Infections: " ++ cli_style s "yellow" false)
      , (pyGetItem relevant_info "deaths" >>= pyFormatComma).map
          (fun s => "Total Fatalities: " ++ cli_style s "red" false)
      , (pyGetItem relevant_info "recovered" >>= pyFormatComma).map
          (fun s => "Total Recoveries: " ++ cli_style s "green" false)
      , (pyGetItem relevant_info "active" >>= pyFormatComma).map
          (fun s => "Currently Infected: " ++ cli_style s "magenta" false)
      , (pyGetItem relevant_info "todayCases" >>= pyFormatComma).map
          (fun s => "New Infections Today: " ++ cli_style s "yellow" false)
      , (pyGetItem relevant_info "todayDeaths" >>= pyFormatComma).map
          (fun s => "New Fatalities Today: " ++ cli_style s "red" false)
      , (pyGetItem relevant_info "updated").bind
          (fun j => match j with
            | Json.num ms => Except.ok ("Last Refreshed: " ++ pyStrftimeLocal tz (ms / 1000))
            | _ => Except.error "TypeError: unsupported operand types for division")
      ]
  else ([], none)

/-- The `nation_stats` command (lines 53-69) applied to the user's nation
argument, the value returned by `get_remote_data`, and a local-zone
offset. -/
def nation_stats (nation : String) (nation_data : Json) (tz : Int) :
    List String × Option String :=
  if nation_data.truthy then
    runEchoes
      [ (pyGetItem nation_data "country").map
          (fun c => cli_style ("--- COVID-19 Stats for " ++ jsonPyStr c ++ " ---") "cyan" true)
      , (pyGetItem nation_data "cases" >>= pyFormatComma).map
          (fun s => "Infections: " ++ cli_style s "yellow" false)
      , (pyGetItem nation_data "deaths" >>= pyFormatComma).map
          (fun s => "Deaths: " ++ cli_style s "red" false)
      , (pyGetItem nation_data "recovered" >>= pyFormatComma).map
          (fun s => "Recovered: " ++ cli_style s "green" false)
      , (pyGetItem nation_data "active" >>= pyFormatComma).map
          (fun s => "Active: " ++ cli_style s "magenta" false)
      , (pyGetItem nation_data "todayCases" >>= pyFormatComma).map
          (fun s => "Today\x27s Infections: " ++ cli_style s "yellow" false)
      , (pyGetItem nation_data "todayDeaths" >>= pyFormatComma).map
          (fun s => "Today\x27s Deaths: " ++ cli_style s "red" false)
      , (pyGetItem nation_data "tests" >>= pyFormatComma).map
          (fun s => "Total Tests Conducted: " ++ cli_style s "blue" false)
      , (pyGetItem nation_data "updated").bind
          (fun j => match j with
            | Json.num ms => Except.ok ("Updated On: " ++ pyStrftimeLocal tz (ms / 1000))
            | _ => Except.error "TypeError: unsupported operand types for division")
      ]
  else (["Could not locate information for: " ++ nation], none)

/-- The attributes of the pandas `DataFrame` class among the names this
program refers to on the class or its instances.  `to_string` is a real
method; `to_datetime` is NOT an attribute of `DataFrame` — in pandas it is
the module-level function `pandas.to_datetime` — so the class-attribute
lookup `DataFrame.to_datetime` on line 84 raises `AttributeError`. -/
def dataFrameClassAttrs : List String := ["to_string"]

/-- Attribute lookup on the pandas `DataFrame` class object. -/
def getattrDataFrame (name : String) : Except String Unit :=
  if dataFrameClassAttrs.contains name then Except.ok ()
  else Except.error ("AttributeError: type object DataFrame has no attribute " ++ name)

/-- Left-pad with spaces to a given width (right-justification used by the
tabular rendering below). -/
def padLeft (s : String) (w : Nat) : String :=
  (List.replicate (w - s.length) ' ').asString ++ s

/-- `pandas.to_datetime` on an `M/D/YY` date string as the program's data
uses, rendered back the way a datetime column prints (`YYYY-MM-DD`);
two-digit years map to 2000-2068 / 1969-1999.  Unreachable at run time:
line 84 raises before any conversion happens (see `getattrDataFrame`). -/
def parseDateISO (s : String) : String :=
  match (s.splitOn "/").map String.toNat? with
  | [some m, some d, some y2] =>
    let y := if y2 ≤ 68 then 2000 + y2 else 1900 + y2
    Nat.repr y ++ "-" ++ pad2 m ++ "-" ++ pad2 d
  | _ => s

/-- `DataFrame.to_string(index=False)` on a two-column frame: header then
rows, every cell right-justified to its column's width, columns separated
by one space, lines joined by newlines.  Unreachable at run time (line 84
raises first), so no theorem depends on its exact text. -/
def frameToString (col1 col2 : String) (rows : List (String × String)) : String :=
  let w1 := (rows.map (fun r => r.1.length)).foldl max col1.length
  let w2 := (rows.map (fun r => r.2.length)).foldl max col2.length
  String.intercalate "\n"
    ((padLeft col1 w1 ++ " " ++ padLeft col2 w2) ::
      rows.map (fun r => padLeft r.1 w1 ++ " " ++ padLeft r.2 w2))

/-- The truthy-and-has-timeline branch of `past_data` (lines 79-94): build
the three frames from the timeline's sub-maps, convert their date columns
(line 84 — where the `DataFrame.to_datetime` lookup raises), then echo the
header and the three tables.  Everything after the `getattrDataFrame` bind
is unreachable at run time. -/
def past_data_render (history : Int) (history_info : Json) :
    Except String (List String) := do
  let timeline ← pyGetItem history_info "timeline"
  let casesItems ← pyItems (← pyGetItem timeline "cases")
  let deathsItems ← pyItems (← pyGetItem timeline "deaths")
  let recoveredItems ← pyItems (← pyGetItem timeline "recovered")
  let _ ← getattrDataFrame "to_datetime"
  let casesRows := casesItems.map (fun kv => (parseDateISO kv.1, jsonPyStr kv.2))
  let deathsRows := deathsItems.map (fun kv => (parseDateISO kv.1, jsonPyStr kv.2))
  let recoveredRows := recoveredItems.map (fun kv => (parseDateISO kv.1, jsonPyStr kv.2))
  let country ← pyGetItem history_info "country"
  pure
    [ cli_style ("--- Past COVID-19 Data for " ++ jsonPyStr country ++
        " (Last " ++ history.repr ++ " Days) ---") "cyan" true
    , cli_style "\n--- Infections Over Time ---" "yellow" true
    , frameToString "Date" "Infections" casesRows
    , cli_style "\n--- Fatalities Over Time ---" "red" true
    , frameToString "Date" "Fatalities" deathsRows
    , cli_style "\n--- Recoveries Over Time ---" "green" true
    , frameToString "Date" "Recoveries" recoveredRows
    ]

/-- The `past_data` command (lines 74-96) applied to the user's place
argument, the `--history` option value, and the value returned by
`get_remote_data`.  The guard on line 78 is `history_info and
(timeline in history_info)`; a falsy response or an absent key takes the
could-not-retrieve branch. -/
def past_data (place : String) (history : Int) (history_info : Json) :
    List String × Option String :=
  if history_info.truthy then
    match pyContains "timeline" history_info with
    | Except.error e => ([], some e)
    | Except.ok true =>
      match past_data_render history history_info with
      | Except.ok lines => (lines, none)
      | Except.error e => ([], some e)
    | Except.ok false =>
      (["Could not retrieve past data for " ++ place ++ " spanning " ++
          history.repr ++ " days."], none)
  else
    (["Could not retrieve past data for " ++ place ++ " spanning " ++
        history.repr ++ " days."], none)

/-- The statements of `get_remote_data`'s body (lines 13-28) that touch the
connection or the console, in source order: open the connection (13),
issue the request (19), read the response object (20), then the status
branch (21-26) whose arms both end in `return` — the 200 arm returns the
parsed body, the other echoes the diagnostic first — and finally the
`connection.close()` on line 28, which sits after both returns. -/
inductive GStmt where
  | openConn
  | sendRequest
  | getResponse
  | echoDiag
  | ret
  | branch (thn els : List GStmt)
  | closeConn

/-- Observable events of one `get_remote_data` call. -/
inductive GEvent where
  | opened
  | requested
  | gotResponse
  | echoed
  | returned
  | closed
deriving DecidableEq, BEq

/-- Runs a statement list with Python's early-return semantics: a `return`
ends the call, so statements after it never execute.  `statusIs200` steers
the branch; the fuel only bounds the recursion and is ample for the
program's body. -/
def execStmts (statusIs200 : Bool) : Nat → List GStmt → List GEvent
  | 0, _ => []
  | _ + 1, [] => []
  | fuel + 1, s :: rest =>
    match s with
    | GStmt.openConn => GEvent.opened :: execStmts statusIs200 fuel rest
    | GStmt.sendRequest => GEvent.requested :: execStmts statusIs200 fuel rest
    | GStmt.getResponse => GEvent.gotResponse :: execStmts statusIs200 fuel rest
    | GStmt.echoDiag => GEvent.echoed :: execStmts statusIs200 fuel rest
    | GStmt.ret => [GEvent.returned]
    | GStmt.branch thn els => execStmts statusIs200 fuel ((if statusIs200 then thn else els) ++ rest)
    | GStmt.closeConn => GEvent.closed :: execStmts statusIs200 fuel rest

/-- The body of `get_remote_data` as a statement list (lines 13-28). -/
def get_remote_data_body : List GStmt :=
  [ GStmt.openConn
  , GStmt.sendRequest
  , GStmt.getResponse
  , GStmt.branch [GStmt.ret] [GStmt.echoDiag, GStmt.ret]
  , GStmt.closeConn
  ]

/-- The query-parameter dict built by `past_data` (line 76), in insertion
order: the `--history` integer and the Python boolean `True`. -/
def past_data_query_params (history : Int) : List (String × PVal) :=
  [("lastdays", PVal.int history), ("full", PVal.bool true)]

/-- The request path `past_data` hands to the connection: `get_full_path`
applied to the arguments of line 77. -/
def past_data_request_path (place : String) (history : Int) : String :=
  get_full_path ("historical/" ++ place) (some (past_data_query_params history))

/-- A global StatsRecord with the seven fields `overall` reads, all
integer-valued as the API serves them. -/
def mkGlobalRecord (c d r a tc td u : Int) : Json :=
  Json.obj
    [ ("cases", Json.num c), ("deaths", Json.num d), ("recovered", Json.num r)
    , ("active", Json.num a), ("todayCases", Json.num tc)
    , ("todayDeaths", Json.num td), ("updated", Json.num u) ]

/-- A per-country StatsRecord with the nine fields `nation_stats` reads. -/
def mkNationRecord (name : String) (c d r a tc td tests u : Int) : Json :=
  Json.obj
    [ ("country", Json.str name)
    , ("cases", Json.num c), ("deaths", Json.num d), ("recovered", Json.num r)
    , ("active", Json.num a), ("todayCases", Json.num tc)
    , ("todayDeaths", Json.num td), ("tests", Json.num tests)
    , ("updated", Json.num u) ]

/-- A well-formed `past_data` response: a resolved country name and a
timeline whose three sub-maps share the same date keys, as the remote API
serves them. -/
def sampleHistoricalResponse : Json :=
  Json.obj
    [ ("country", Json.str "USA")
    , ("timeline", Json.obj
        [ ("cases", Json.obj [("1/1/21", Json.num 100), ("1/2/21", Json.num 120)])
        , ("deaths", Json.obj [("1/1/21", Json.num 1), ("1/2/21", Json.num 2)])
        , ("recovered", Json.obj [("1/1/21", Json.num 10), ("1/2/21", Json.num 15)])
        ]) ]

/-- A response object carrying no `timeline` key, as the API answers for an
unknown place. -/
def noTimelineResponse : Json :=
  Json.obj [("message", Json.str "not found")]

/-! Helper lemmas about the date-and-time rendering. -/

/-- `pad2` yields exactly two characters on inputs below 100. -/
theorem pad2_length (n : Nat) (h : n < 100) : (pad2 n).length = 2 := by
  interval_cases n <;> rfl

/-- `pad2` yields only decimal digits on inputs below 100. -/
theorem pad2_digits (n : Nat) (h : n < 100) : (pad2 n).data.all Char.isDigit = true := by
  interval_cases n <;> rfl

/-- The month lies in 1..12 and the day in 1..31 for every day count. -/
theorem civilFromDays_month_day_bounds (z : Int) :
    1 ≤ (civilFromDays z).2.1 ∧ (civilFromDays z).2.1 ≤ 12 ∧
    1 ≤ (civilFromDays z).2.2 ∧ (civilFromDays z).2.2 ≤ 31 := by
  dsimp only [civilFromDays]
  omega

/-- Hour, minute and second components are within their clock ranges. -/
theorem pyFromtimestampParts_tod_bounds (tz secs : Int) :
    0 ≤ (pyFromtimestampParts tz secs).2.2.2.1 ∧ (pyFromtimestampParts tz secs).2.2.2.1 < 24 ∧
    0 ≤ (pyFromtimestampParts tz secs).2.2.2.2.1 ∧
      (pyFromtimestampParts tz secs).2.2.2.2.1 < 60 ∧
    0 ≤ (pyFromtimestampParts tz secs).2.2.2.2.2 ∧
      (pyFromtimestampParts tz secs).2.2.2.2.2 < 60 := by
  dsimp only [pyFromtimestampParts]
  omega

/-- C1: for every call of `get_remote_data` in which the HTTP response
status is not 200, the function echoes exactly one diagnostic line, which
contains the numeric status code and the reason phrase, and returns the
no-data signal `None` to the caller instead of raising. -/
theorem get_remote_data_non200_prints_status_and_returns_none
    (status : Nat) (reason : String) (parsedBody : Json) (h : status ≠ 200) :
    get_remote_data_result status reason parsedBody =
      (["Encountered an issue fetching data: " ++ Nat.repr status ++ " " ++ reason],
       Json.null) := by
  simp [get_remote_data_result, h]

theorem get_remote_data_non200_witness :
    (404 : Nat) ≠ 200 ∧
    get_remote_data_result 404 "Not Found" (Json.obj []) =
      (["Encountered an issue fetching data: " ++ Nat.repr 404 ++ " " ++ "Not Found"],
       Json.null) :=
  ⟨by decide,
   get_remote_data_non200_prints_status_and_returns_none 404 "Not Found" (Json.obj [])
     (by decide)⟩

/-- C2 (counterexample): the past-data request path is NOT
`/v3/covid-19/historical/{place}?lastdays={n}&full=true` — at place `usa`
and 7 days the built path differs from that claim (the boolean is
serialised by Python `str` as `True`, capital T). -/
theorem past_data_request_path_lowercase_true_counterexample :
    past_data_request_path "usa" 7 ≠
      "/v3/covid-19/historical/usa?lastdays=7&full=true" := by
  decide

/-- C2 (amended): for every place and requested day count, the past-data
command issues a GET whose request path is exactly
`/v3/covid-19/historical/{place}?lastdays={n}&full=True`. -/
theorem past_data_request_path_eq (place : String) (n : Int) :
    past_data_request_path place n =
      "/v3/covid-19/historical/" ++ place ++ "?lastdays=" ++ n.repr ++ "&full=True" := by
  simp [past_data_request_path, get_full_path, past_data_query_params, PVal.pyStr,
    String.intercalate, String.intercalate.go, API_VERSION, ← String.append_assoc]
  rw [String.append_assoc _ "?" "lastdays=", String.append_assoc _ "&" "full=True"]
  simp [← String.append_assoc]

/-- C3: with a non-empty parameter mapping, `get_remote_data` builds the
request path by appending the path to the prefix `/v3/covid-19/` and then
`?` followed by the `key=value` pairs joined with `&`, each value via
Python `str` (string values pass through literally, with no URL-encoding);
with no mapping, no `?` is appended. -/
theorem get_full_path_spec (path : String) (qs : List (String × PVal)) (h : qs ≠ []) :
    get_full_path path (some qs) =
      "/v3/covid-19/" ++ path ++ "?" ++
        String.intercalate "&" (qs.map (fun kv => kv.1 ++ "=" ++ kv.2.pyStr)) ∧
    get_full_path path none = "/v3/covid-19/" ++ path ∧
    ∀ s : String, (PVal.str s).pyStr = s := by
  refine ⟨?_, rfl, fun s => rfl⟩
  match qs, h with
  | a :: as, _ => rfl

theorem get_full_path_spec_witness :
    ([("country", PVal.str "france")] : List (String × PVal)) ≠ [] ∧
    (get_full_path "all" (some [("country", PVal.str "france")]) =
      "/v3/covid-19/" ++ "all" ++ "?" ++
        String.intercalate "&"
          ([("country", PVal.str "france")].map (fun kv => kv.1 ++ "=" ++ kv.2.pyStr)) ∧
     get_full_path "all" none = "/v3/covid-19/" ++ "all" ∧
     ∀ s : String, (PVal.str s).pyStr = s) :=
  ⟨List.cons_ne_nil _ _, get_full_path_spec "all" _ (List.cons_ne_nil _ _)⟩

/-- C4: for every user-supplied nation string, when the fetcher returned no
data (`None`), the command's output is exactly one line, `Could not locate
information for: ` followed by the user's input verbatim, and no exception
is raised. -/
theorem nation_stats_not_found_exact (nation : String) (tz : Int) :
    nation_stats nation Json.null tz =
      (["Could not locate information for: " ++ nation], none) := rfl

/-- C5: a `past_data` response that lacks a `timeline` key takes the
failure path: the output is exactly the could-not-retrieve line (naming the
place and day count) and no part of any table is rendered. -/
theorem past_data_missing_timeline_fail_path (place : String) (history : Int)
    (info : Json) (h : pyContains "timeline" info = Except.ok false) :
    past_data place history info =
      (["Could not retrieve past data for " ++ place ++ " spanning " ++
          history.repr ++ " days."], none) := by
  unfold past_data
  by_cases ht : info.truthy <;> simp [ht, h]

theorem past_data_missing_timeline_witness :
    pyContains "timeline" noTimelineResponse = Except.ok false ∧
    past_data "usa" 7 noTimelineResponse =
      (["Could not retrieve past data for " ++ "usa" ++ " spanning " ++
          (7 : Int).repr ++ " days."], none) :=
  ⟨rfl, past_data_missing_timeline_fail_path "usa" 7 noTimelineResponse rfl⟩

/-- C6: on a well-formed successful response (timeline with the three
sub-maps present), `past_data` does NOT print the three tables: the
class-attribute lookup `DataFrame.to_datetime` on line 84 raises
`AttributeError` (pandas keeps `to_datetime` on the module, not on the
`DataFrame` class), so the command echoes nothing and dies before the first
table line. -/
theorem past_data_crashes_before_rendering :
    past_data "usa" 7 sampleHistoricalResponse =
      ([], some "AttributeError: type object DataFrame has no attribute to_datetime") := rfl

/-- C7: every numeric field printed by `overall` and `nation_stats` is
rendered through the thousands-separator format; in particular 1234567
renders as `1,234,567`. -/
theorem numeric_fields_thousands_separators :
    (∀ c d r a tc td u tz : Int,
      overall (mkGlobalRecord c d r a tc td u) tz =
        ([ cli_style "--- Global COVID-19 Overview ---" "cyan" true
         , "Total Infections: " ++ cli_style (formatNum c) "yellow" false
         , "Total Fatalities: " ++ cli_style (formatNum d) "red" false
         , "Total Recoveries: " ++ cli_style (formatNum r) "green" false
         , "Currently Infected: " ++ cli_style (formatNum a) "magenta" false
         , "New Infections Today: " ++ cli_style (formatNum tc) "yellow" false
         , "New Fatalities Today: " ++ cli_style (formatNum td) "red" false
         , "Last Refreshed: " ++ pyStrftimeLocal tz (u / 1000)
         ], none)) ∧
    (∀ (nation name : String) (c d r a tc td tests u tz : Int),
      nation_stats nation (mkNationRecord name c d r a tc td tests u) tz =
        ([ cli_style ("--- COVID-19 Stats for " ++ name ++ " ---") "cyan" true
         , "Infections: " ++ cli_style (formatNum c) "yellow" false
         , "Deaths: " ++ cli_style (formatNum d) "red" false
         , "Recovered: " ++ cli_style (formatNum r) "green" false
         , "Active: " ++ cli_style (formatNum a) "magenta" false
         , "Today\x27s Infections: " ++ cli_style (formatNum tc) "yellow" false
         , "Today\x27s Deaths: " ++ cli_style (formatNum td) "red" false
         , "Total Tests Conducted: " ++ cli_style (formatNum tests) "blue" false
         , "Updated On: " ++ pyStrftimeLocal tz (u / 1000)
         ], none)) ∧
    formatNum 1234567 = "1,234,567" :=
  ⟨fun _ _ _ _ _ _ _ _ => rfl, fun _ _ _ _ _ _ _ _ _ _ _ => rfl, rfl⟩

/-- C8: both commands render the `updated` field by dividing the epoch
milliseconds by 1000 and formatting the resulting seconds as a local-time
string `%Y-%m-%d %H:%M:%S`: the timestamp line is exactly the formatter
applied to `updated / 1000`, the formatted string decomposes as
`Y-M-D H:Mi:S` with two-digit numeric month, day, hour, minute and second
components, and concrete epochs render in the `YYYY-MM-DD HH:MM:SS` form
(shown at two local-zone offsets). -/
theorem updated_epoch_ms_local_time_format :
    (∀ c d r a tc td u tz : Int,
      (overall (mkGlobalRecord c d r a tc td u) tz).1.getLast? =
        some ("Last Refreshed: " ++ pyStrftimeLocal tz (u / 1000))) ∧
    (∀ (nation name : String) (c d r a tc td tests u tz : Int),
      (nation_stats nation (mkNationRecord name c d r a tc td tests u) tz).1.getLast? =
        some ("Updated On: " ++ pyStrftimeLocal tz (u / 1000))) ∧
    (∀ tz secs : Int, ∃ Y M D H Mi S : String,
      pyStrftimeLocal tz secs =
        Y ++ "-" ++ M ++ "-" ++ D ++ " " ++ H ++ ":" ++ Mi ++ ":" ++ S ∧
      M.length = 2 ∧ D.length = 2 ∧ H.length = 2 ∧ Mi.length = 2 ∧ S.length = 2 ∧
      M.data.all Char.isDigit = true ∧ D.data.all Char.isDigit = true ∧
      H.data.all Char.isDigit = true ∧ Mi.data.all Char.isDigit = true ∧
      S.data.all Char.isDigit = true) ∧
    pyStrftimeLocal 0 1700000000 = "2023-11-14 22:13:20" ∧
    pyStrftimeLocal 3600 1700000000 = "2023-11-14 23:13:20" := by
  refine ⟨fun _ _ _ _ _ _ _ _ => rfl, fun _ _ _ _ _ _ _ _ _ _ _ => rfl, ?_, rfl, rfl⟩
  intro tz secs
  have hmd := civilFromDays_month_day_bounds ((secs + tz) / 86400)
  have htod := pyFromtimestampParts_tod_bounds tz secs
  have hm1 : 1 ≤ (pyFromtimestampParts tz secs).2.1 := hmd.1
  have hm2 : (pyFromtimestampParts tz secs).2.1 ≤ 12 := hmd.2.1
  have hd1 : 1 ≤ (pyFromtimestampParts tz secs).2.2.1 := hmd.2.2.1
  have hd2 : (pyFromtimestampParts tz secs).2.2.1 ≤ 31 := hmd.2.2.2
  refine ⟨((pyFromtimestampParts tz secs).1).repr,
    pad2 ((pyFromtimestampParts tz secs).2.1).toNat,
    pad2 ((pyFromtimestampParts tz secs).2.2.1).toNat,
    pad2 ((pyFromtimestampParts tz secs).2.2.2.1).toNat,
    pad2 ((pyFromtimestampParts tz secs).2.2.2.2.1).toNat,
    pad2 ((pyFromtimestampParts tz secs).2.2.2.2.2).toNat,
    rfl,
    pad2_length _ (by omega), pad2_length _ (by omega), pad2_length _ (by omega),
    pad2_length _ (by omega), pad2_length _ (by omega),
    pad2_digits _ (by omega), pad2_digits _ (by omega), pad2_digits _ (by omega),
    pad2_digits _ (by omega), pad2_digits _ (by omega)⟩

/-- C9: the connection is opened exactly once per call of
`get_remote_data`, but it is never closed — on neither the 200 path nor
the non-200 path — because the `connection.close()` statement (the last
statement of the body, line 28) sits after the `return` of each branch and
so never executes. -/
theorem connection_opened_never_closed :
    ∀ statusIs200 : Bool,
      (execStmts statusIs200 100 get_remote_data_body).count GEvent.opened = 1 ∧
      (execStmts statusIs200 100 get_remote_data_body).count GEvent.closed = 0 ∧
      get_remote_data_body.getLast? = some GStmt.closeConn := by
  intro b
  cases b <;> exact ⟨rfl, rfl, rfl⟩

/-- C10: a 200 response whose body parses to a falsy JSON value (such as
the empty object or empty array) is indistinguishable at the output from a
no-data failure: `nation_stats` prints exactly the same
`Could not locate information for:` line it prints for `None`, and
`overall` prints nothing at all. -/
theorem falsy_200_same_as_no_data (nation : String) (tz : Int) (j : Json)
    (h : j.truthy = false) :
    nation_stats nation j tz = nation_stats nation Json.null tz ∧
    nation_stats nation j tz = (["Could not locate information for: " ++ nation], none) ∧
    overall j tz = ([], none) := by
  have hnull : Json.null.truthy = false := rfl
  refine ⟨?_, ?_, ?_⟩ <;> simp [nation_stats, overall, h, hnull]

theorem falsy_200_same_as_no_data_witness :
    (Json.obj []).truthy = false ∧ (Json.arr []).truthy = false ∧
    (nation_stats "xx" (Json.obj []) 0 = nation_stats "xx" Json.null 0 ∧
     nation_stats "xx" (Json.obj []) 0 =
       (["Could not locate information for: " ++ "xx"], none) ∧
     overall (Json.obj []) 0 = ([], none)) :=
  ⟨rfl, rfl, falsy_200_same_as_no_data "xx" 0 (Json.obj []) rfl⟩

end Week7
